import Mathlib

/-!
Shallow embedding of `proxy_io` (host-side serial multiplexing layer,
`src/proxy_io/serial_host.py`) together with proofs about its response
classifier, transport worker loop, per-port registry and service channel.

Conventions of the embedding:
* Python strings are Lean `String`; `str.split()` is modelled over the
  character list of the string (runs of whitespace separate tokens, empty
  tokens are dropped).
* Python values that may be either a list of lines or a plain string
  (the worker puts both shapes on a response queue) are modelled by
  `RawResponse`.
* Python code that can raise (`SerialCommand[...]` raising `KeyError`,
  sequence indexing raising `IndexError`, `str + bytes` raising
  `TypeError`) is modelled in the `Except PyErr` monad.
* Queues and threads are elided: the worker's per-request transaction is
  modelled as a pure function from the polled transport contents to the
  (service id, raw response) pair it puts on that service's queue, and the
  registry is modelled as explicit state passing over an association-list
  state.
-/

deriving instance DecidableEq for Except

namespace ProxySerial

/-- Embedding of the `ConnectionType` enum (serial_host.py lines 23-26). -/
inductive ConnectionType where
  | SPI
  | DIO
  | RELAY
deriving DecidableEq

/-- Embedding of the `SerialCommand` enum (serial_host.py lines 29-43):
the twelve protocol verbs plus the `ERROR` and `EXCEPTION` kinds. -/
inductive SerialCommand where
  | VERSION
  | HELP
  | DIO_DIRECTION
  | DIO_LIST
  | DIO_CLEAR
  | DIO_SET
  | DIO_READ
  | RELAY_LIST
  | RELAY_SET
  | RELAY_CLEAR
  | SPI_SEND
  | SPI_RECEIVE
  | ERROR
  | EXCEPTION
deriving DecidableEq

/-- Python `member.name` for `SerialCommand`. -/
def SerialCommand.name : SerialCommand → String
  | .VERSION => "VERSION"
  | .HELP => "HELP"
  | .DIO_DIRECTION => "DIO_DIRECTION"
  | .DIO_LIST => "DIO_LIST"
  | .DIO_CLEAR => "DIO_CLEAR"
  | .DIO_SET => "DIO_SET"
  | .DIO_READ => "DIO_READ"
  | .RELAY_LIST => "RELAY_LIST"
  | .RELAY_SET => "RELAY_SET"
  | .RELAY_CLEAR => "RELAY_CLEAR"
  | .SPI_SEND => "SPI_SEND"
  | .SPI_RECEIVE => "SPI_RECEIVE"
  | .ERROR => "ERROR"
  | .EXCEPTION => "EXCEPTION"

/-- Python `SerialCommand[s]` name lookup; `none` models the `KeyError`
raised when `s` is not a member name. -/
def SerialCommand.lookup (s : String) : Option SerialCommand :=
  if s = "VERSION" then some .VERSION
  else if s = "HELP" then some .HELP
  else if s = "DIO_DIRECTION" then some .DIO_DIRECTION
  else if s = "DIO_LIST" then some .DIO_LIST
  else if s = "DIO_CLEAR" then some .DIO_CLEAR
  else if s = "DIO_SET" then some .DIO_SET
  else if s = "DIO_READ" then some .DIO_READ
  else if s = "RELAY_LIST" then some .RELAY_LIST
  else if s = "RELAY_SET" then some .RELAY_SET
  else if s = "RELAY_CLEAR" then some .RELAY_CLEAR
  else if s = "SPI_SEND" then some .SPI_SEND
  else if s = "SPI_RECEIVE" then some .SPI_RECEIVE
  else if s = "ERROR" then some .ERROR
  else if s = "EXCEPTION" then some .EXCEPTION
  else none

/-- The twelve declared protocol verbs, i.e. every `SerialCommand` member
except the two response-only kinds `ERROR` and `EXCEPTION`. -/
def SerialCommand.is_declared_verb : SerialCommand → Bool
  | .ERROR => false
  | .EXCEPTION => false
  | _ => true

/-- Exceptions the embedded Python fragments can raise. -/
inductive PyErr where
  | keyError (key : String)
  | indexError
  | typeError
deriving DecidableEq

/-- Raw value the worker puts on a service response queue.  It is usually a
list of decoded lines, but two paths in `SerialInterface.run` /
`SharedSerial.handle_command` put a plain Python string instead (the
port-not-open message, and `""` on a caller-side queue timeout), so both
shapes are represented. -/
inductive RawResponse where
  | lines (ls : List String)
  | str (s : String)
deriving DecidableEq

/-- The `data` value of a cleaned response: either the joined remaining
tokens of the first line (a plain string) or a single-key Python dict such
as `{"error": ...}` / `{"exception": ...}`. -/
inductive RespData where
  | str (s : String)
  | map (key : String) (value : String)
deriving DecidableEq

/-- Structured response built by `SharedSerial.clean_response`
(serial_host.py lines 167-172): always the keys `command` and `data`, plus
`extension` exactly when it is `some`. -/
structure Envelope where
  command : SerialCommand
  data : RespData
  extension : Option String
deriving DecidableEq

/-- Python `str.split()` (no separator argument): split on runs of
whitespace, dropping empty tokens.  Modelled over the character list of the
string. -/
def pyStrSplit (s : String) : List String :=
  ((s.toList.splitOnP Char.isWhitespace).filter (fun t => ¬t.isEmpty)).map
    (fun cs => String.mk cs)

/-- Python truthiness test `not text_response` for the two queue value
shapes: an empty list and an empty string are falsy. -/
def pyFalsy : RawResponse → Bool
  | .lines ls => ls.isEmpty
  | .str s => s.isEmpty

/-- Python `text_response[0]`: the first line of a list, or the first
character of a string (as a one-character string).  Only evaluated by
`clean_response` after the falsiness guard, so the default for an empty
list is never reached. -/
def pyFirst : RawResponse → String
  | .lines ls => ls.headD ""
  | .str s => s.take 1

/-- Python `len(text_response)`. -/
def pyLen : RawResponse → Nat
  | .lines ls => ls.length
  | .str s => s.length

/-- Python `"\n".join(text_response[1:])`: for a list, the tail lines
joined by a newline; for a string, its characters after the first joined by
a newline. -/
def pyExtension : RawResponse → String
  | .lines ls => String.intercalate "\n" ls.tail
  | .str s => String.intercalate "\n" ((s.drop 1).toList.map (fun c => String.mk [c]))

/-- Extension attachment of `clean_response` (serial_host.py lines
171-172): present exactly when the input has more than one element. -/
def response_extension (t : RawResponse) : Option String :=
  if 1 < pyLen t then some (pyExtension t) else none

/-- Embedding of `SharedSerial.clean_response` (serial_host.py lines
143-173).  The source checks `"ERROR:"` and `"EXCEPTION:"` with two
independent `if` statements and attaches the `else` (enum name lookup) to
the second one only, so the assignments of the `"ERROR:"` branch are dead:
they are unconditionally overwritten by the `"EXCEPTION:"` branch or by the
`else` branch (which raises `KeyError` when the first token is not a member
name, and `IndexError` when the first line has no tokens).  The dead
assignment is kept here as the discarded binding `_dead_error_branch`. -/
def clean_response (text_response : RawResponse) : Except PyErr Envelope :=
  if pyFalsy text_response then
    .ok { command := .ERROR
          data := .map "error" "No response from MCU"
          extension := response_extension text_response }
  else
    let response_fields := pyStrSplit (pyFirst text_response)
    let _dead_error_branch :=
      if "ERROR:" ∈ response_fields.take 2 then
        some (SerialCommand.ERROR, RespData.map "error" (pyFirst text_response))
      else none
    if "EXCEPTION:" ∈ response_fields.take 2 then
      .ok { command := .EXCEPTION
            data := .map "exception" (pyFirst text_response)
            extension := response_extension text_response }
    else
      match response_fields with
      | [] => .error .indexError
      | f0 :: rest =>
        match SerialCommand.lookup f0 with
        | none => .error (.keyError f0)
        | some c =>
          .ok { command := c
                data := .str (String.intercalate " " rest)
                extension := response_extension text_response }

/-- The `data` entry of a command dict: `SharedSerial.handle_command` and
the `*Io` classes pass either a text payload or (for SPI) a raw `bytes`
payload straight through. -/
inductive PyData where
  | str (s : String)
  | bytes (bs : List Nat)
deriving DecidableEq

/-- Command dict placed on the worker input queue (serial_host.py lines
54-59 and 201-207). -/
structure CmdDict where
  service : ConnectionType
  command : SerialCommand
  data : PyData
deriving DecidableEq

/-- Embedding of `serial_command_str = cmd_dict["command"].name + " " +
cmd_dict["data"] + "\r\n"` (serial_host.py line 96).  Python string
concatenation with a `bytes` value raises `TypeError`. -/
def serial_command_str (command : SerialCommand) (data : PyData) : Except PyErr String :=
  match data with
  | .str s => .ok (command.name ++ " " ++ s ++ "\r\n")
  | .bytes _ => .error .typeError

/-- Embedding of the bounded read loop of `SerialInterface.run`
(serial_host.py lines 102-111): up to `fuel` poll intervals starting at
interval `i`, where `polls i` is what `readlines` would decode at interval
`i` (`[]` meaning `in_waiting` is false).  The first non-empty poll is
delivered, with the first line dropped when it is a literal echo of the
outgoing command line; if every interval is empty the synthetic
`["TIMEOUT"]` result is produced. -/
def run_poll_loop (cmd_line : String) (polls : Nat → List String) : Nat → Nat → List String
  | 0, _ => ["TIMEOUT"]
  | fuel + 1, i =>
    match polls i with
    | [] => run_poll_loop cmd_line polls fuel (i + 1)
    | l :: rest => if l = cmd_line then rest else l :: rest

/-- Message text put on the queue when the write raises `PortNotOpenError`
(serial_host.py line 100).  Note it is a plain string, not a line list. -/
def PORT_NOT_OPEN_MESSAGE : String :=
  "ERROR: Cannot send DIO command as serial port not open."

/-- Embedding of one request transaction of `SerialInterface.run`
(serial_host.py lines 95-112): the pair is (service whose queue receives
the result, raw value put on that queue).  `port_open` is whether the write
succeeds (`False` models `PortNotOpenError`); an `Except.error` result
models an exception escaping `run` and killing the worker thread before
anything is delivered.  The lookup `self.service_qs[cmd_dict["service"]]`
is elided: the result is routed by service id. -/
def process_command (cmd_dict : CmdDict) (port_open : Bool) (polls : Nat → List String) :
    Except PyErr (ConnectionType × RawResponse) :=
  match serial_command_str cmd_dict.command cmd_dict.data with
  | .error e => .error e
  | .ok cmd_line =>
    if port_open then
      .ok (cmd_dict.service, .lines (run_poll_loop cmd_line polls 20 0))
    else
      .ok (cmd_dict.service, .str PORT_NOT_OPEN_MESSAGE)

/-- Caller-side ceiling (seconds) of `self.response_q.get(True, 10)` in
`SharedSerial.handle_command` (serial_host.py line 209). -/
def handle_command_queue_timeout : Nat := 10

/-- Response processing of `SharedSerial.handle_command` (serial_host.py
lines 208-217): `none` models `queue.Empty` after the 10 second ceiling, in
which case `raw_response = ""` (an empty string) is classified.  The
`if "error" in cleaned or "exception" in cleaned` branch only adds
printing — `cleaned` has keys `command`/`data`/`extension` so the test is
always false — and both branches return `cleaned` unchanged. -/
def handle_command_result (raw : Option RawResponse) : Except PyErr Envelope :=
  clean_response (raw.getD (.str ""))

/-! Association lists standing for the Python dicts
`SerialInterface.service_qs` and `SharedSerial.serial_interfaces`.  Keys
are unique in every state reachable by the modelled operations, and all
operations act on the first occurrence of a key. -/

/-- Dict lookup `d.get(k)` / `d[k]`. -/
def assocGet {κ α : Type} [DecidableEq κ] : List (κ × α) → κ → Option α
  | [], _ => none
  | (k, v) :: rest, key => if k = key then some v else assocGet rest key

/-- Dict assignment `d[k] = v`. -/
def assocSet {κ α : Type} [DecidableEq κ] : List (κ × α) → κ → α → List (κ × α)
  | [], key, val => [(key, val)]
  | (k, v) :: rest, key, val =>
    if k = key then (key, val) :: rest else (k, v) :: assocSet rest key val

/-- Dict removal `d.pop(k, None)`. -/
def assocPop {κ α : Type} [DecidableEq κ] : List (κ × α) → κ → List (κ × α)
  | [], _ => []
  | (k, v) :: rest, key => if k = key then rest else (k, v) :: assocPop rest key

/-- In-place update of the value stored under a key (used to model
mutating one worker object held in the registry dict). -/
def assocUpdate {κ α : Type} [DecidableEq κ] (f : α → α) : List (κ × α) → κ → List (κ × α)
  | [], _ => []
  | (k, v) :: rest, key =>
    if k = key then (key, f v) :: rest else (k, v) :: assocUpdate f rest key

/-- Observable state of one `SerialInterface` worker: its `alive` flag and
its `service_qs` dict mapping a service id to that service's response queue
(queues are named by `Nat` identifiers). -/
structure SerialInterfaceState where
  alive : Bool
  service_qs : List (ConnectionType × Nat)
deriving DecidableEq

/-- Embedding of `SerialInterface.register` (serial_host.py lines 79-80). -/
def SerialInterfaceState.register (st : SerialInterfaceState) (service : ConnectionType)
    (service_q : Nat) : SerialInterfaceState :=
  { st with service_qs := assocSet st.service_qs service service_q }

/-- Embedding of `SerialInterface.close_service` followed by `close`
(serial_host.py lines 114-121): the routing entry is popped, and when the
table becomes empty `close()` clears `alive`, which ends the `while
self.alive` run loop and thereby releases the connection held by its
`with` block. -/
def SerialInterfaceState.close_service (st : SerialInterfaceState) (service : ConnectionType) :
    SerialInterfaceState :=
  let qs := assocPop st.service_qs service
  if qs.isEmpty then { alive := false, service_qs := qs }
  else { st with service_qs := qs }

/-- State of the class-level registry `SharedSerial.serial_interfaces`
(serial_host.py line 126) plus the worker objects it refers to: ports map
to worker identifiers, worker identifiers map to worker states, and
`fresh` names the next worker identifier (modelling object allocation). -/
structure SharedSerialRegistry where
  serial_interfaces : List (String × Nat)
  workers : List (Nat × SerialInterfaceState)
  fresh : Nat
deriving DecidableEq

/-- Embedding of `SharedSerial.obtain_serial_interface` (serial_host.py
lines 175-186): lazily create and start a worker for an unseen port (a
started worker has `alive = True` and no registered services), then
register the requesting service's queue on the port's worker; the result
is the identifier of the worker the channel holds. -/
def obtain_serial_interface (s : SharedSerialRegistry) (serial_port : String)
    (service : ConnectionType) (response_q : Nat) : Nat × SharedSerialRegistry :=
  let s1 :=
    if (assocGet s.serial_interfaces serial_port).isNone then
      { serial_interfaces := assocSet s.serial_interfaces serial_port s.fresh
        workers := assocSet s.workers s.fresh { alive := true, service_qs := [] }
        fresh := s.fresh + 1 }
    else s
  match assocGet s1.serial_interfaces serial_port with
  | some wid =>
    (wid, { s1 with workers := assocUpdate (fun st => st.register service response_q) s1.workers wid })
  | none =>
    -- unreachable: the port was inserted by the branch above when absent
    (0, s1)

/-- Embedding of `SharedSerial.close_service` (serial_host.py lines
219-222): `serial_interfaces[self.serial_port]` raises `KeyError` for an
unknown port, otherwise that port's worker deregisters the service. -/
def registry_close_service (s : SharedSerialRegistry) (serial_port : String)
    (service : ConnectionType) : Except PyErr SharedSerialRegistry :=
  match assocGet s.serial_interfaces serial_port with
  | none => .error (.keyError serial_port)
  | some wid =>
    .ok { s with workers := assocUpdate (fun st => st.close_service service) s.workers wid }

/-! Helper lemmas about the enum. -/

/-- Name lookup inverts the name of every member. -/
theorem SerialCommand.lookup_name (c : SerialCommand) : SerialCommand.lookup c.name = some c := by
  cases c <;> rfl

/-- No member name carries the trailing colon of the wire markers. -/
theorem SerialCommand.name_ne_exception_marker (c : SerialCommand) : c.name ≠ "EXCEPTION:" := by
  cases c <;> decide

/-- Claim C1: for every declared verb V and every well-formed single-line
input `["V <data>"]` (first token the verb's name, and the data tokens not
starting with the `EXCEPTION:` marker), `clean_response` returns an
envelope with kind V, data the remaining tokens of the first line joined by
a single space, and no extension field. -/
theorem verb_response_classified (V : SerialCommand) (line : String) (args : List String)
    (_hverb : V.is_declared_verb = true)
    (hsplit : pyStrSplit line = V.name :: args)
    (hnomark : "EXCEPTION:" ∉ args.take 1) :
    clean_response (.lines [line]) =
      .ok { command := V, data := .str (String.intercalate " " args), extension := none } := by
  have hmem : "EXCEPTION:" ∉ (V.name :: args).take 2 := by
    rw [List.take_succ_cons, List.mem_cons]
    rintro (h | h)
    · exact V.name_ne_exception_marker h.symm
    · exact hnomark h
  have hfirst : pyFirst (RawResponse.lines [line]) = line := rfl
  simp only [clean_response, pyFalsy, List.isEmpty_cons, Bool.false_eq_true, if_false,
    hfirst, hsplit, SerialCommand.lookup_name, response_extension, pyLen,
    List.length_cons, List.length_nil]
  rw [if_neg hmem]
  norm_num

/-- Witness for C1 at the concrete input of spec property P4. -/
theorem verb_response_classified_witness :
    (SerialCommand.DIO_SET.is_declared_verb = true ∧
      pyStrSplit "DIO_SET 3 true" = ["DIO_SET", "3", "true"] ∧
      "EXCEPTION:" ∉ (["3", "true"] : List String).take 1) ∧
    clean_response (.lines ["DIO_SET 3 true"]) =
      .ok { command := .DIO_SET, data := .str "3 true", extension := none } :=
  ⟨by refine ⟨rfl, by decide, by decide⟩,
    verb_response_classified .DIO_SET "DIO_SET 3 true" ["3", "true"] rfl (by decide) (by decide)⟩

/-- Claim C2 (code bug): classifying `["ERROR: bad pin"]` does not return
an ERROR envelope — the `else` of the independent `EXCEPTION:` check runs
the enum lookup `SerialCommand["ERROR:"]`, which raises `KeyError`, the
assignments of the `ERROR:` branch being dead. -/
theorem error_line_raises_key_error :
    clean_response (.lines ["ERROR: bad pin"]) = .error (.keyError "ERROR:") := by decide

/-- Claim C3 (code bug): an unrecognized first token is not converted to an
ERROR envelope with an unknown-verb message; the enum lookup raises
`KeyError` naming the token instead. -/
theorem unknown_verb_raises_key_error :
    clean_response (.lines ["FOOBAR stuff"]) = .error (.keyError "FOOBAR") := by decide

/-- Claim C4 (code bug): when the transport supplies no bytes for all 20
poll intervals the worker does deliver the synthetic `["TIMEOUT"]` result
to the requesting service's queue, but `handle_command` then feeds it to
`clean_response`, whose enum lookup `SerialCommand["TIMEOUT"]` raises
`KeyError` — no ERROR/TIMEOUT envelope is returned to the caller. -/
theorem timeout_synthesis_then_key_error (svc : ConnectionType) (verb : SerialCommand)
    (payload : String) :
    process_command ⟨svc, verb, .str payload⟩ true (fun _ => []) = .ok (svc, .lines ["TIMEOUT"]) ∧
    clean_response (.lines ["TIMEOUT"]) = .error (.keyError "TIMEOUT") :=
  ⟨rfl, by decide⟩

/-- Claim C5: a caller-side queue timeout (modelled by `none`, for which
`handle_command` substitutes the empty string) — equivalently an empty line
sequence — is classified as an ERROR envelope whose data records "No
response from MCU", without raising; the queue ceiling constant is 10
seconds. -/
theorem no_response_envelope :
    handle_command_result none =
      .ok { command := .ERROR, data := .map "error" "No response from MCU", extension := none } ∧
    clean_response (.lines []) =
      .ok { command := .ERROR, data := .map "error" "No response from MCU", extension := none } ∧
    handle_command_queue_timeout = 10 :=
  ⟨by decide, by decide, rfl⟩

/-- Claim C6 (code bug): when the write fails because the port is not open
the worker does put a synthetic message on the requesting service's queue,
but as a plain string, not a line list; `clean_response` then takes
`text_response[0]` — the single character "E" — finds no such enum member,
and raises `KeyError`, so the caller gets an exception rather than a
structured ERROR envelope. -/
theorem port_not_open_then_key_error (svc : ConnectionType) (verb : SerialCommand)
    (payload : String) (polls : Nat → List String) :
    process_command ⟨svc, verb, .str payload⟩ false polls = .ok (svc, .str PORT_NOT_OPEN_MESSAGE) ∧
    clean_response (.str PORT_NOT_OPEN_MESSAGE) = .error (.keyError "E") :=
  ⟨rfl, by decide⟩

/-- Claim C9 (code bug): submitting SPI_SEND with the byte payload
`[0xDE, 0xAD]` never produces the wire line "SPI_SEND de:ad" — the worker
concatenates the Python `str` command name with the `bytes` payload, which
raises `TypeError` and kills the worker thread before any write.  (Had the
device reply "SPI_SEND Sent: de ad" arrived, the classifier would indeed
return kind SPI_SEND with data "Sent: de ad".) -/
theorem spi_send_bytes_type_error :
    process_command ⟨ .SPI, .SPI_SEND, .bytes [0xDE, 0xAD]⟩ true (fun _ => []) =
      .error .typeError ∧
    clean_response (.lines ["SPI_SEND Sent: de ad\r\n"]) =
      .ok { command := .SPI_SEND, data := .str "Sent: de ad", extension := none } :=
  ⟨rfl, by decide⟩

/-- Helper for C7: the read loop delivers (echo-stripped) the contents of
the first poll interval at which bytes are waiting, provided that interval
is within the remaining fuel. -/
theorem run_poll_loop_first_delivery (cmd_line : String) (polls : Nat → List String)
    (l : String) (rest : List String) :
    ∀ (k fuel i : Nat), k < fuel → (∀ j, j < k → polls (i + j) = []) →
      polls (i + k) = l :: rest →
      run_poll_loop cmd_line polls fuel i = if l = cmd_line then rest else l :: rest := by
  intro k
  induction k with
  | zero =>
    intro fuel i hk _hq hp
    match fuel, hk with
    | fuel + 1, _ =>
      rw [Nat.add_zero] at hp
      simp only [run_poll_loop, hp]
  | succ k ih =>
    intro fuel i hk hq hp
    match fuel, hk with
    | fuel + 1, hk =>
      have h0 : polls i = [] := by simpa using hq 0 (Nat.succ_pos k)
      simp only [run_poll_loop, h0]
      refine ih fuel (i + 1) (Nat.lt_of_succ_lt_succ hk) ?_ ?_
      · intro j hj
        have := hq (j + 1) (Nat.succ_lt_succ hj)
        simpa [Nat.add_comm, Nat.add_assoc, Nat.add_left_comm] using this
      · simpa [Nat.add_comm, Nat.add_assoc, Nat.add_left_comm] using hp

/-- Claim C7: during a transaction, if the first received line equals the
literal echo of the outgoing command line the worker discards it and
delivers only the remaining lines to the requesting service's queue;
otherwise all received lines are delivered unchanged.  The received lines
are those of the first poll interval (within the 20-interval ceiling) at
which bytes are waiting. -/
theorem echo_discarded (svc : ConnectionType) (verb : SerialCommand) (payload : String)
    (polls : Nat → List String) (k : Nat) (l : String) (rest : List String)
    (hk : k < 20) (hquiet : ∀ j, j < k → polls j = []) (hpoll : polls k = l :: rest) :
    process_command ⟨svc, verb, .str payload⟩ true polls =
      .ok (svc, .lines
        (if l = verb.name ++ " " ++ payload ++ "\r\n" then rest else l :: rest)) := by
  have hloop := run_poll_loop_first_delivery (verb.name ++ " " ++ payload ++ "\r\n") polls
    l rest k 20 0 hk (by simpa using hquiet) (by simpa using hpoll)
  simp only [process_command, serial_command_str, hloop, if_true]

/-- Witness for C7: the transport echoes the outgoing DIO_SET line at the
third poll interval and the echo is stripped from the delivered lines. -/
theorem echo_discarded_witness :
    (2 < 20 ∧
      (∀ j, j < 2 →
        (fun i => if i = 2 then ["DIO_SET 3 true\r\n", "DIO_SET 3 true"] else ([] : List String)) j
          = []) ∧
      (fun i => if i = 2 then ["DIO_SET 3 true\r\n", "DIO_SET 3 true"] else ([] : List String)) 2
        = ["DIO_SET 3 true\r\n", "DIO_SET 3 true"]) ∧
    process_command ⟨ ConnectionType.DIO, .DIO_SET, .str "3 true"⟩ true
        (fun i => if i = 2 then ["DIO_SET 3 true\r\n", "DIO_SET 3 true"] else []) =
      .ok (ConnectionType.DIO, .lines ["DIO_SET 3 true"]) :=
  ⟨⟨by norm_num, by decide, by decide⟩, by
    have h := echo_discarded ConnectionType.DIO .DIO_SET "3 true"
      (fun i => if i = 2 then ["DIO_SET 3 true\r\n", "DIO_SET 3 true"] else []) 2
      "DIO_SET 3 true\r\n" ["DIO_SET 3 true"] (by norm_num) (by decide) (by decide)
    simpa using h⟩

/-! Helper lemmas for the registry model. -/

/-- Reading back a key just assigned. -/
theorem assocGet_assocSet_self {κ α : Type} [DecidableEq κ] (d : List (κ × α)) (k : κ) (v : α) :
    assocGet (assocSet d k v) k = some v := by
  induction d with
  | nil => simp [assocGet, assocSet]
  | cons hd tl ih =>
    obtain ⟨k0, v0⟩ := hd
    by_cases h : k0 = k <;> simp [assocGet, assocSet, h, ih]

/-- Updating the value under a key just assigned. -/
theorem assocUpdate_assocSet_self {κ α : Type} [DecidableEq κ] (f : α → α) (d : List (κ × α))
    (k : κ) (v : α) :
    assocUpdate f (assocSet d k v) k = assocSet d k (f v) := by
  induction d with
  | nil => simp [assocUpdate, assocSet]
  | cons hd tl ih =>
    obtain ⟨k0, v0⟩ := hd
    by_cases h : k0 = k <;> simp [assocUpdate, assocSet, h, ih]

/-- Acquisition of a port with no live worker yet: a worker is created,
started alive with an empty routing table, and the requesting service is
registered on it. -/
theorem obtain_serial_interface_fresh (s : SharedSerialRegistry) (port : String)
    (svc : ConnectionType) (q : Nat) (hport : assocGet s.serial_interfaces port = none) :
    obtain_serial_interface s port svc q =
      (s.fresh,
        { serial_interfaces := assocSet s.serial_interfaces port s.fresh
          workers := assocSet s.workers s.fresh { alive := true, service_qs := [(svc, q)] }
          fresh := s.fresh + 1 }) := by
  simp only [obtain_serial_interface, hport, Option.isNone_none, if_true,
    assocGet_assocSet_self, assocUpdate_assocSet_self, SerialInterfaceState.register]
  rfl

/-- Acquisition of a port whose worker already exists: the same worker is
reused and the requesting service is registered on it. -/
theorem obtain_serial_interface_present (s : SharedSerialRegistry) (port : String)
    (svc : ConnectionType) (q : Nat) (wid : Nat)
    (hport : assocGet s.serial_interfaces port = some wid) :
    obtain_serial_interface s port svc q =
      (wid, { s with
        workers := assocUpdate (fun st => st.register svc q) s.workers wid }) := by
  simp only [obtain_serial_interface, hport, Option.isNone_some, Bool.false_eq_true, if_false]

/-- Claim C8: on a port with no live worker, two channels obtained
sequentially share one worker; deregistering one service leaves that worker
alive with the other service still routed; deregistering the last service
clears the worker's `alive` flag (stopping its run loop and releasing the
connection). -/
theorem one_worker_per_port (s : SharedSerialRegistry) (port : String)
    (svc1 svc2 : ConnectionType) (q1 q2 : Nat)
    (hport : assocGet s.serial_interfaces port = none) (hsvc : svc1 ≠ svc2) :
    (obtain_serial_interface s port svc1 q1).1 =
      (obtain_serial_interface (obtain_serial_interface s port svc1 q1).2 port svc2 q2).1 ∧
    (∃ s3,
      registry_close_service
          (obtain_serial_interface (obtain_serial_interface s port svc1 q1).2 port svc2 q2).2
          port svc1 = .ok s3 ∧
      (∃ w, assocGet s3.workers (obtain_serial_interface s port svc1 q1).1 = some w ∧
        w.alive = true ∧ assocGet w.service_qs svc2 = some q2) ∧
      (∃ s4, registry_close_service s3 port svc2 = .ok s4 ∧
        (∃ w, assocGet s4.workers (obtain_serial_interface s port svc1 q1).1 = some w ∧
          w.alive = false ∧ w.service_qs = []))) := by
  rw [obtain_serial_interface_fresh s port svc1 q1 hport]
  have hport2 :
      assocGet (assocSet s.serial_interfaces port s.fresh) port = some s.fresh :=
    assocGet_assocSet_self ..
  rw [obtain_serial_interface_present _ port svc2 q2 s.fresh hport2]
  simp only [assocUpdate_assocSet_self, SerialInterfaceState.register]
  have hqs2 : assocSet [(svc1, q1)] svc2 q2 = [(svc1, q1), (svc2, q2)] := by
    simp [assocSet, hsvc]
  rw [hqs2]
  refine ⟨by simp, ?_⟩
  have hclose1 :
      SerialInterfaceState.close_service
          { alive := true, service_qs := [(svc1, q1), (svc2, q2)] } svc1
        = { alive := true, service_qs := [(svc2, q2)] } := by
    simp [SerialInterfaceState.close_service, assocPop]
  have hclose2 :
      SerialInterfaceState.close_service
          { alive := true, service_qs := [(svc2, q2)] } svc2
        = { alive := false, service_qs := [] } := by
    simp [SerialInterfaceState.close_service, assocPop]
  simp only [registry_close_service, hport2, assocUpdate_assocSet_self, hclose1]
  refine ⟨_, rfl, ?side, ?_⟩
  case side => exact ⟨_, assocGet_assocSet_self .., rfl, by simp [assocGet]⟩
  · simp only [registry_close_service, hport2, assocUpdate_assocSet_self, hclose2]
    exact ⟨_, rfl, _, assocGet_assocSet_self .., rfl, rfl⟩

/-- Witness for C8: two channels on the port "/dev/ttyACM0" of an empty
registry. -/
theorem one_worker_per_port_witness :
    (assocGet (([] : List (String × Nat))) "/dev/ttyACM0" = none ∧
      ConnectionType.DIO ≠ ConnectionType.SPI) ∧
    ((obtain_serial_interface ⟨[], [], 0⟩ "/dev/ttyACM0" ConnectionType.DIO 0).1 =
      (obtain_serial_interface
        (obtain_serial_interface ⟨[], [], 0⟩ "/dev/ttyACM0" ConnectionType.DIO 0).2 "/dev/ttyACM0" .SPI 1).1 ∧
    (∃ s3,
      registry_close_service
          (obtain_serial_interface
            (obtain_serial_interface ⟨[], [], 0⟩ "/dev/ttyACM0" ConnectionType.DIO 0).2
            "/dev/ttyACM0" .SPI 1).2
          "/dev/ttyACM0" ConnectionType.DIO = .ok s3 ∧
      (∃ w, assocGet s3.workers (obtain_serial_interface ⟨[], [], 0⟩ "/dev/ttyACM0" ConnectionType.DIO 0).1
          = some w ∧
        w.alive = true ∧ assocGet w.service_qs .SPI = some 1) ∧
      (∃ s4, registry_close_service s3 "/dev/ttyACM0" .SPI = .ok s4 ∧
        (∃ w, assocGet s4.workers (obtain_serial_interface ⟨[], [], 0⟩ "/dev/ttyACM0" ConnectionType.DIO 0).1
            = some w ∧
          w.alive = false ∧ w.service_qs = [])))) :=
  ⟨⟨rfl, by decide⟩,
    one_worker_per_port ⟨[], [], 0⟩ "/dev/ttyACM0" ConnectionType.DIO .SPI 0 1 rfl (by decide)⟩

/-- Helper for C10: the extension field is present exactly when the input
has more than one element. -/
theorem response_extension_isSome (t : RawResponse) :
    (response_extension t).isSome ↔ 1 < pyLen t := by
  by_cases hc : 1 < pyLen t <;> simp [response_extension, hc]

/-- Counterexample to claim C10 as stated: the input `["ERROR x"]` (first
token the bare member name `ERROR`, no colon) is classified as kind ERROR
with the plain string data "x", not a single-key mapping. -/
theorem error_kind_with_string_data :
    clean_response (.lines ["ERROR x"]) =
      .ok { command := .ERROR, data := .str "x", extension := none } ∧
    ∀ k v, RespData.str "x" ≠ RespData.map k v :=
  ⟨by decide, fun _ _ h => RespData.noConfusion h⟩

/-- Claim C10 (amended): every envelope `clean_response` returns carries
exactly the keys command and data, plus extension exactly when the input
has more than one element; a mapping data is single-key, under "error" only
for empty input (with kind ERROR) and under "exception" only with kind
EXCEPTION; for every declared-verb kind the data is a plain string — but
kinds ERROR and EXCEPTION can also carry plain string data, when the bare
member name (no colon) is the first token. -/
theorem envelope_shape (t : RawResponse) (env : Envelope)
    (h : clean_response t = .ok env) :
    (env.extension.isSome ↔ 1 < pyLen t) ∧
    (∀ k v, env.data = .map k v →
      (k = "error" ∧ env.command = .ERROR ∧ pyFalsy t = true) ∨
      (k = "exception" ∧ env.command = .EXCEPTION)) ∧
    (env.command.is_declared_verb = true → ∃ s, env.data = .str s) := by
  simp only [clean_response] at h
  split at h
  case isTrue hfalsy =>
    rw [Except.ok.injEq] at h
    subst h
    refine ⟨response_extension_isSome t, ?_, ?_⟩
    · intro k v hkv
      injection hkv with hk _
      exact Or.inl ⟨hk.symm, rfl, hfalsy⟩
    · intro hverb
      exact absurd hverb (by simp [SerialCommand.is_declared_verb])
  case isFalse =>
    split at h
    case isTrue =>
      rw [Except.ok.injEq] at h
      subst h
      refine ⟨response_extension_isSome t, ?_, ?_⟩
      · intro k v hkv
        injection hkv with hk _
        exact Or.inr ⟨hk.symm, rfl⟩
      · intro hverb
        exact absurd hverb (by simp [SerialCommand.is_declared_verb])
    case isFalse =>
      split at h
      · exact absurd h (by simp)
      · split at h
        · exact absurd h (by simp)
        · rw [Except.ok.injEq] at h
          subst h
          refine ⟨response_extension_isSome t, ?_, ?_⟩
          · intro k v hkv
            exact absurd hkv (by simp)
          · intro _
            exact ⟨_, rfl⟩

/-- Witness for C10 at a two-line verb response. -/
theorem envelope_shape_witness :
    clean_response (.lines ["VERSION 0.0.1", "boot ok"]) =
      .ok { command := .VERSION, data := .str "0.0.1", extension := some "boot ok" } ∧
    ((some "boot ok").isSome ↔ 1 < pyLen (.lines ["VERSION 0.0.1", "boot ok"])) ∧
    (∀ k v, RespData.str "0.0.1" = .map k v →
      (k = "error" ∧ SerialCommand.VERSION = .ERROR ∧
        pyFalsy (.lines ["VERSION 0.0.1", "boot ok"]) = true) ∨
      (k = "exception" ∧ SerialCommand.VERSION = .EXCEPTION)) ∧
    (SerialCommand.VERSION.is_declared_verb = true → ∃ s, RespData.str "0.0.1" = .str s) :=
  ⟨by decide, envelope_shape (.lines ["VERSION 0.0.1", "boot ok"])
    { command := .VERSION, data := .str "0.0.1", extension := some "boot ok" } (by decide)⟩

end ProxySerial
